import Mathlib

/-!
Shallow embedding of the Everglades Escape core: `src/character.py`,
`src/game_state.py`, `src/events.py`, `src/world.py`, and the travel
hazard-resolution step of `main.py`.

Python integers are modelled as `Int`, the module-level `random` generator as
an explicit stream of naturals threaded through every sampling call, Python
sets of strings as duplicate-free lists with membership-guarded insertion,
and code that can raise (`TypeError` / `IndexError`) as `Except String`.
-/

set_option autoImplicit false

/-- The pseudo-random source (`random` module): a stream of naturals consumed
one draw at a time.  An exhausted stream keeps yielding 0; theorems quantify
over all streams. -/
abbrev Rng : Type := List Nat

/-- Take one draw from the stream. -/
def rngNext (g : Rng) : Nat × Rng :=
  match g with
  | [] => (0, [])
  | n :: g' => (n, g')

/-- Models `random.random()`: a rational in the interval [0, 1). -/
def randFloat (g : Rng) : ℚ × Rng :=
  let p := rngNext g
  (mkRat ((p.1 % 1000 : Nat) : Int) 1000, p.2)

/-- Models `random.randint(lo, hi)` for `lo ≤ hi`: an integer in [lo, hi]. -/
def randInt (lo hi : Int) (g : Rng) : Int × Rng :=
  let p := rngNext g
  (lo + (p.1 : Int) % (hi - lo + 1), p.2)

/-- Models `random.choice(seq)` on a sequence known (at the call site) to be
nonempty, as in `sudden_storm_effect`, `snake_bite_effect` and
`check_travel_hazards`, which all guard the call by a nonemptiness test. -/
def choiceNE {α : Type} (l : List α) (h : l ≠ []) (g : Rng) : α × Rng :=
  let p := rngNext g
  (l.get ⟨p.1 % l.length, Nat.mod_lt _ (List.length_pos.mpr h)⟩, p.2)

/-- Models `random.choice(seq)` in full: raises `IndexError` on an empty
sequence (CPython: "Cannot choose from an empty sequence"). -/
def choiceE {α : Type} (l : List α) (g : Rng) : Except String (α × Rng) :=
  match l with
  | [] => .error ("IndexError: Cannot choose from an empty sequence")
  | a :: t => .ok (choiceNE (a :: t) (by simp) g)

/-- Models `dict.get(key)` on a string-keyed table (association list). -/
def assocFind? {α : Type} (l : List (String × α)) (k : String) : Option α :=
  match l.find? (fun p => p.1 == k) with
  | some p => some p.2
  | none => none

/-- Models `dict.get(key, dflt)` on a string-keyed table. -/
def assocGetD {α : Type} (l : List (String × α)) (k : String) (d : α) : α :=
  (assocFind? l k).getD d

/-- Embeds `PartyMember` (src/character.py).  `status_effects` is a Python
`set` of strings, modelled as a duplicate-free list. -/
structure PartyMember where
  name : String
  max_health : Int
  max_hunger : Int
  health : Int
  hunger : Int
  status_effects : List String
deriving Repr, DecidableEq

/-- Embeds `PartyMember.__init__` with its default arguments
(`max_health=100`, `max_hunger=100`, `initial_health=None`,
`initial_hunger=None`). -/
def PartyMember.make (name : String) (max_health : Int := 100)
    (max_hunger : Int := 100) (initial_health : Option Int := none)
    (initial_hunger : Option Int := none) : PartyMember :=
  { name := name
    max_health := max_health
    max_hunger := max_hunger
    health := initial_health.getD max_health
    hunger := initial_hunger.getD max_hunger
    status_effects := [] }

/-- Embeds `PartyMember.is_alive`. -/
def PartyMember.is_alive (m : PartyMember) : Bool :=
  m.health > 0

/-- Embeds `PartyMember.has_status_effect`. -/
def PartyMember.has_status_effect (m : PartyMember) (effect : String) : Bool :=
  decide (effect ∈ m.status_effects)

/-- The damage report of `take_damage` (an f-string there). -/
def takeDamageMsg (nm : String) (amt h mh : Int) : String :=
  nm ++ " takes " ++ toString amt ++ " damage. Health: " ++ toString h ++ "/" ++ toString mh

/-- Embeds `PartyMember.add_status_effect`.  The source logs through an
optional `game_state` argument; `hasGs` records whether one was passed, and
`log` stands for that game message log of that game state. -/
def PartyMember.add_status_effect (m : PartyMember) (effect : String)
    (log : List String) (hasGs : Bool) : PartyMember × List String :=
  if m.is_alive = false ∧ effect ≠ "perished" then (m, log)
  else if effect ∈ m.status_effects then (m, log)
  else
    let log' := if hasGs then log ++ [m.name ++ " gains status: " ++ effect] else log
    ({ m with status_effects := effect :: m.status_effects }, log')

/-- Embeds `PartyMember.remove_status_effect` (`set.discard`). -/
def PartyMember.remove_status_effect (m : PartyMember) (effect : String)
    (log : List String) (hasGs : Bool) : PartyMember × List String :=
  if effect ∈ m.status_effects then
    let log' := if hasGs then log ++ [m.name ++ " loses status: " ++ effect] else log
    ({ m with status_effects := m.status_effects.filter (fun t => t != effect) }, log')
  else (m, log)

/-- Embeds `PartyMember.take_damage`. -/
def PartyMember.take_damage (m : PartyMember) (amount : Int)
    (log : List String) (hasGs : Bool) : PartyMember × List String :=
  if amount ≤ 0 ∨ m.is_alive = false then (m, log)
  else
    let m1 : PartyMember := { m with health := max 0 (m.health - amount) }
    let log1 := if hasGs then
        log ++ [takeDamageMsg m.name amount m1.health m1.max_health]
      else log
    if m1.is_alive = false ∧ "perished" ∉ m1.status_effects then
      let log2 := if hasGs then log1 ++ [m.name ++ " has perished."] else log1
      m1.add_status_effect ("perished") log2 hasGs
    else (m1, log1)

/-- Embeds `PartyMember.heal`. -/
def PartyMember.heal (m : PartyMember) (amount : Int)
    (log : List String) (hasGs : Bool) : PartyMember × List String :=
  if amount ≤ 0 ∨ m.is_alive = false then (m, log)
  else
    let m1 : PartyMember := { m with health := min m.max_health (m.health + amount) }
    let log1 := if m1.health > m.health ∧ hasGs then
        log ++ [m.name ++ " heals " ++ toString amount ++ " HP. Health: " ++
          toString m1.health ++ "/" ++ toString m1.max_health]
      else log
    (m1, log1)

/-- Embeds `PartyMember.change_hunger`. -/
def PartyMember.change_hunger (m : PartyMember) (amount : Int)
    (log : List String) (hasGs : Bool) : PartyMember × List String :=
  if m.is_alive = false then (m, log)
  else
    let initial_is_starving : Bool := decide ("starving" ∈ m.status_effects)
    let m1 : PartyMember := { m with hunger := max 0 (min m.max_hunger (m.hunger + amount)) }
    if m1.hunger ≤ 0 ∧ initial_is_starving = false then
      let p := m1.add_status_effect ("starving") log hasGs
      (p.1, if hasGs then p.2 ++ [m.name ++ " is starving!"] else p.2)
    else if m1.hunger > 10 ∧ initial_is_starving = true then
      let p := m1.remove_status_effect ("starving") log hasGs
      (p.1, if hasGs then p.2 ++ [m.name ++ " is no longer starving."] else p.2)
    else (m1, log)

/-- Embeds `PartyMember.apply_daily_effects` (the member-level method, which
requires a `game_state` argument; a passed game state is always truthy, so all
inner calls log). -/
def PartyMember.apply_daily_effects (m : PartyMember) (log : List String) :
    PartyMember × List String :=
  if m.is_alive = false then (m, log)
  else
    let p1 := m.change_hunger (-10) log true
    let p2 := if p1.1.has_status_effect ("starving") then p1.1.take_damage 12 p1.2 true else p1
    let p3 := if p2.1.has_status_effect ("sick") then p2.1.take_damage 3 p2.2 true else p2
    let p4 := if p3.1.has_status_effect ("snakebitten") then p3.1.take_damage 8 p3.2 true else p3
    p4


/-- Embeds `Location` (src/world.py). -/
structure Location where
  location_id : String
  name : String
  description : String
  connections : List (String × String)
  hazards : List String
  resource_availability : List (String × ℚ)
  is_destination : Bool
deriving Repr, DecidableEq

/-- The three effect functions defined in src/events.py.  `GameEvent` in the
source binds an arbitrary callable; every event instance the repository
creates binds one of these three, so the bound callable is modelled as a tag
dispatched by `applyEffect`. -/
inductive EffectKind where
  | storm
  | berries
  | snake
deriving Repr, DecidableEq

/-- Embeds `GameEvent` (src/events.py); `effectKind` stands for the
`apply_effect` callable. -/
structure GameEvent where
  event_id : String
  name : String
  description : String
  event_type : String
  effectKind : EffectKind
deriving Repr, DecidableEq

/-- The `resources` dict of `GameState.__init__`: its five keys are fixed at
construction and never added to or removed by the core. -/
structure Resources where
  food : Int
  canoe_health : Int
  wood : Int
  herbs : Int
  repair_materials : Int
deriving Repr, DecidableEq

/-- Embeds `GameState` (src/game_state.py). -/
structure GameState where
  current_day : Int
  time_remaining : Int
  party_members : List PartyMember
  resources : Resources
  current_location : Option Location
  locations : List (String × Location)
  events : List (String × GameEvent)
  active_events : List GameEvent
  game_over : Bool
  win_condition_met : Bool
  loss_reason : Option String
  message_log : List String
deriving Repr, DecidableEq

/-- Embeds `GameState.__init__` with its default arguments. -/
def GameState.make (initial_time_limit : Int := 30) (initial_food : Int := 20)
    (initial_canoe_health : Int := 100) : GameState :=
  { current_day := 1
    time_remaining := initial_time_limit
    party_members := []
    resources :=
      { food := initial_food
        canoe_health := initial_canoe_health
        wood := 0
        herbs := 0
        repair_materials := 0 }
    current_location := none
    locations := []
    events := []
    active_events := []
    game_over := false
    win_condition_met := false
    loss_reason := none
    message_log := [] }

/-- Embeds `GameState.log_message` (the console `print` is not modelled). -/
def GameState.log_message (s : GameState) (message : String) : GameState :=
  { s with message_log := s.message_log ++ [message] }

/-- Embeds `GameState.set_game_over`. -/
def GameState.set_game_over (s : GameState) (win : Bool) (reason : String) : GameState :=
  if s.game_over then s
  else
    (({ s with game_over := true, win_condition_met := win, loss_reason := some reason
      }).log_message ("--- GAME OVER ---")).log_message reason

/-- Conditions (2)-(4) of `GameState.check_game_over_conditions`, split out so
the destination test can share the tail across the `current_location` match. -/
def GameState.check_game_over_tail (s : GameState) : GameState :=
  if s.time_remaining < 0 then
    s.set_game_over false ("The impending disaster arrived... you ran out of time.")
  else if s.party_members.any (fun m => m.is_alive) = false then
    s.set_game_over false ("The entire party has perished in the Everglades.")
  else if s.resources.canoe_health ≤ 0 then
    s.log_message ("Warning: The canoe has been destroyed!")
  else s

/-- Embeds `GameState.check_game_over_conditions`. -/
def GameState.check_game_over_conditions (s : GameState) : GameState :=
  if s.game_over then s
  else
    match s.current_location with
    | some loc =>
        if loc.is_destination then
          s.set_game_over true ("Congratulations! The party reached " ++ loc.name ++ " safely.")
        else s.check_game_over_tail
    | none => s.check_game_over_tail

/-- Embeds `GameState.apply_daily_party_effects`.  The loop body of the source calls
`member.apply_daily_effects()` with no argument, while the `PartyMember`
signature requires `game_state`; the first living member reached therefore
raises `TypeError`.  With no living member the loop completes and the closing
separator is logged; with an empty party the method returns right after the
header. -/
def GameState.apply_daily_party_effects (s : GameState) : Except String GameState :=
  let s1 := s.log_message ("--- Daily Effects (Start of Day " ++ toString s.current_day ++ ") ---")
  if s1.party_members.isEmpty then .ok s1
  else if s1.party_members.any (fun m => m.is_alive) then
    .error ("TypeError: apply_daily_effects() missing 1 required positional argument: \x27game_state\x27")
  else .ok (s1.log_message ("--------------------------------"))

/-- Embeds `GameState.advance_day`. -/
def GameState.advance_day (s : GameState) : Except String GameState :=
  if s.game_over then .ok (s.log_message ("Cannot advance day: Game is already over."))
  else
    let s1 : GameState :=
      { s with current_day := s.current_day + 1, time_remaining := s.time_remaining - 1 }
    let s2 := s1.log_message ("\n=== Day " ++ toString s1.current_day ++
      " | Time Remaining: " ++ toString s1.time_remaining ++ " days ===")
    match s2.apply_daily_party_effects with
    | .error e => .error e
    | .ok s3 => .ok s3.check_game_over_conditions

/-- Indices (into `party_members`) of the living members, in list order; the
positional counterpart of the `living_members` list comprehensions in the
source (members are mutated in place there, so an index is the faithful way to
address the chosen member). -/
def livingIdxs (members : List PartyMember) : List Nat :=
  (members.enum.filter (fun p => p.2.is_alive)).map (fun p => p.1)

/-- The canoe-damage report of `sudden_storm_effect` (an f-string there). -/
def stormBatteredMsg (d hp : Int) : String :=
  "The canoe is battered by wind and waves, taking " ++ toString d ++
    " damage (Health: " ++ toString hp ++ ")."

/-- The injury report of `sudden_storm_effect` (an f-string there). -/
def stormInjuredMsg (nm : String) (d : Int) : String :=
  nm ++ " is injured (" ++ toString d ++ " HP) amidst the chaos!"

/-- Embeds `sudden_storm_effect` (src/events.py).  The `" ".join(message)`
of the source is assembled by direct concatenation (the first part is always
present).  Inner `take_damage` / `add_status_effect` calls pass no
`game_state`, so they do not log. -/
def sudden_storm_effect (s : GameState) (g : Rng) : GameState × Rng × String :=
  let pd := randInt 5 25 g
  let canoe_damage := pd.1
  let g1 := pd.2
  let current_canoe_health := s.resources.canoe_health
  let new_canoe_health := max 0 (current_canoe_health - canoe_damage)
  let s1 : GameState := { s with resources := { s.resources with canoe_health := new_canoe_health } }
  let base := stormBatteredMsg canoe_damage new_canoe_health
  let base2 := if new_canoe_health ≤ 0 then base ++ " " ++ "The canoe is destroyed!" else base
  match h : livingIdxs s1.party_members with
  | [] => (s1, g1, "A sudden thunderstorm hits! " ++ base2)
  | i :: rest =>
      let pr := randFloat g1
      if pr.1 < mkRat 3 10 then
        let pc := choiceNE (i :: rest) (by simp) pr.2
        let idx := pc.1
        let pi2 := randInt 1 10 pc.2
        let injury_damage := pi2.1
        let member := s1.party_members.getD idx (PartyMember.make (""))
        let member1 := (member.take_damage injury_damage [] false).1
        let member2 := (member1.add_status_effect ("injured") [] false).1
        let s2 : GameState := { s1 with party_members := s1.party_members.set idx member2 }
        let base3 := base2 ++ " " ++ stormInjuredMsg member.name injury_damage
        (s2, pi2.2, "A sudden thunderstorm hits! " ++ base3)
      else (s1, pr.2, "A sudden thunderstorm hits! " ++ base2)

/-- Embeds `found_berries_effect` (src/events.py).  When the poison roll fires
with a nonempty but fully-perished party, `random.choice` is applied to the
empty living-member list and raises `IndexError`; the `if member:` guard of
the source never fires (a `PartyMember` object is always truthy), so its
`else` arm is dead code. -/
def found_berries_effect (s : GameState) (g : Rng) : Except String (GameState × Rng × String) :=
  let pf := randInt 3 8 g
  let food_gain := pf.1
  let s1 : GameState := { s with resources := { s.resources with food := s.resources.food + food_gain } }
  let pr := randFloat pf.2
  if pr.1 < mkRat 5 100 ∧ s1.party_members.isEmpty = false then
    match choiceE (livingIdxs s1.party_members) pr.2 with
    | .error e => .error e
    | .ok (idx, g3) =>
        let member := s1.party_members.getD idx (PartyMember.make (""))
        let member1 := (member.add_status_effect ("sick") [] false).1
        let s2 : GameState := { s1 with party_members := s1.party_members.set idx member1 }
        .ok (s2, g3, "You stumble upon a patch of berries! Gained " ++ toString food_gain ++
          " food, but " ++ member.name ++ " feels sick after eating them.")
  else
    .ok (s1, pr.2, "You stumble upon a patch of ripe berries! Gained " ++
      toString food_gain ++ " food.")

/-- Embeds `snake_bite_effect` (src/events.py). -/
def snake_bite_effect (s : GameState) (g : Rng) : GameState × Rng × String :=
  match h : livingIdxs s.party_members with
  | [] => (s, g, "A venomous snake lunges, but there\x27s no one left to bite.")
  | i :: rest =>
      let pc := choiceNE (i :: rest) (by simp) g
      let idx := pc.1
      let pb := randInt 10 25 pc.2
      let bite_damage := pb.1
      let member := s.party_members.getD idx (PartyMember.make (""))
      let member1 := (member.take_damage bite_damage [] false).1
      let member2 := (member1.add_status_effect ("snakebitten") [] false).1
      let s1 : GameState := { s with party_members := s.party_members.set idx member2 }
      (s1, pb.2, "Rustling in the undergrowth! " ++ member.name ++
        " is bitten by a venomous snake (" ++ toString bite_damage ++ " HP)!")

/-- Dispatch of the `apply_effect` callable bound into a `GameEvent`. -/
def applyEffect (k : EffectKind) (s : GameState) (g : Rng) :
    Except String (GameState × Rng × String) :=
  match k with
  | .storm => .ok (sudden_storm_effect s g)
  | .berries => found_berries_effect s g
  | .snake => .ok (snake_bite_effect s g)

/-- Embeds `GameEvent.trigger` (the `print` feedback is not modelled): runs the
bound effect, appends the event to `active_events`, returns the outcome
message. -/
def GameEvent.trigger (e : GameEvent) (s : GameState) (g : Rng) :
    Except String (GameState × Rng × String) :=
  match applyEffect e.effectKind s g with
  | .error err => .error err
  | .ok (s1, g1, outcome_message) =>
      .ok ({ s1 with active_events := s1.active_events ++ [e] }, g1, outcome_message)

/-- Iterated `GameEvent.trigger`, discarding the outcome messages. -/
def triggerN (e : GameEvent) : Nat → GameState → Rng → Except String (GameState × Rng)
  | 0, s, g => .ok (s, g)
  | n + 1, s, g =>
      match e.trigger s g with
      | .error err => .error err
      | .ok (s1, g1, _) => triggerN e n s1 g1

/-- The `HAZARD_PROBABILITY` table of main.py. -/
def HAZARD_PROBABILITY : List (String × ℚ) :=
  [("submerged logs", mkRat 25 100), ("alligator", mkRat 15 100),
   ("snakes", mkRat 20 100), ("difficult terrain", mkRat 10 100)]

/-- The `HAZARD_CANOE_DAMAGE` table of main.py. -/
def HAZARD_CANOE_DAMAGE : List (String × Int × Int) :=
  [("submerged logs", 5, 15)]

/-- The `HAZARD_PERSON_DAMAGE` table of main.py. -/
def HAZARD_PERSON_DAMAGE : List (String × Int × Int) :=
  [("alligator", 15, 30), ("snakes", 10, 20)]

/-- One iteration of the hazard loop body of `check_travel_hazards` (main.py),
for a fixed snapshot `living` of the living-member index list. -/
def hazardStep (probTable : List (String × ℚ))
    (canoeTable personTable : List (String × Int × Int))
    (living : List Nat) (hNE : living ≠ []) (acc : GameState × Rng) (hazard : String) :
    GameState × Rng :=
  let s := acc.1
  let probability := assocGetD probTable hazard 0
  let pr := randFloat acc.2
  if pr.1 < probability then
    let s1 := s.log_message ("Hazard encountered: " ++ hazard.capitalize ++ "!")
    match assocFind? canoeTable hazard with
    | some (min_dmg, max_dmg) =>
        let pd := randInt min_dmg max_dmg pr.2
        let damage := pd.1
        let current_canoe_health := s1.resources.canoe_health
        if current_canoe_health > 0 then
          let new_canoe_health := max 0 (current_canoe_health - damage)
          let s2 : GameState :=
            { s1 with resources := { s1.resources with canoe_health := new_canoe_health } }
          let s3 := s2.log_message ("The canoe strikes " ++ hazard ++ ", taking " ++
            toString damage ++ " damage! Health: " ++ toString new_canoe_health)
          let s4 := if new_canoe_health ≤ 0 then
              s3.log_message ("The canoe is critically damaged and unusable!")
            else s3
          (s4, pd.2)
        else (s1, pd.2)
    | none =>
        match assocFind? personTable hazard with
        | some (min_dmg, max_dmg) =>
            let pd := randInt min_dmg max_dmg pr.2
            let damage := pd.1
            let pc := choiceNE living hNE pd.2
            let idx := pc.1
            let s2 := s1.log_message ("A " ++ hazard ++ " attacks!")
            let member := s2.party_members.getD idx (PartyMember.make (""))
            let pm := member.take_damage damage s2.message_log true
            let s3 : GameState :=
              { s2 with party_members := s2.party_members.set idx pm.1, message_log := pm.2 }
            let pm2 := (s3.party_members.getD idx (PartyMember.make (""))).add_status_effect
              ("injured") s3.message_log true
            let s4 : GameState :=
              { s3 with party_members := s3.party_members.set idx pm2.1, message_log := pm2.2 }
            (s4, pc.2)
        | none =>
            if hazard == "difficult terrain" then
              (s1.log_message ("Travel through difficult terrain was strenuous."), pr.2)
            else (s1, pr.2)
  else (s, pr.2)

/-- Embeds `check_travel_hazards` (main.py), parameterised over the three
hazard tables (module constants in the source). -/
def check_travel_hazards (probTable : List (String × ℚ))
    (canoeTable personTable : List (String × Int × Int))
    (s : GameState) (g : Rng) : GameState × Rng :=
  match s.current_location with
  | none => (s, g)
  | some loc =>
      if loc.hazards.isEmpty then (s, g)
      else
        match h : livingIdxs s.party_members with
        | [] => (s, g)
        | i :: rest =>
            loc.hazards.foldl
              (hazardStep probTable canoeTable personTable (i :: rest) (by simp)) (s, g)


/-! Concrete fixtures used by counterexamples and witnesses. -/

/-- A healthy default member (health 100, hunger 100). -/
def chayton : PartyMember := PartyMember.make ("Chayton")

/-- A living member with hunger 90. -/
def hungry90 : PartyMember := PartyMember.make ("Api") 100 100 none (some 90)

/-- A living member with hunger 50. -/
def hungry50 : PartyMember := PartyMember.make ("Nokomis") 100 100 none (some 50)

/-- A perished member (health 0). -/
def ghost : PartyMember :=
  { name := "Ghost", max_health := 100, max_hunger := 100, health := 0, hunger := 50,
    status_effects := ["perished"] }

/-- A non-destination location without hazards. -/
def hammock : Location :=
  { location_id := "start_hammock", name := "Shaded Hammock",
    description := "A small, relatively dry island of hardwood trees.",
    connections := [], hazards := [], resource_availability := [], is_destination := false }

/-- A non-destination location with the single canoe-damaging hazard. -/
def slough : Location :=
  { location_id := "murky_slough", name := "Murky Slough",
    description := "A slow-moving channel of dark water, thick with vegetation.",
    connections := [], hazards := ["submerged logs"], resource_availability := [],
    is_destination := false }

/-- The winning destination location. -/
def coastalMound : Location :=
  { location_id := "coastal_mound", name := "Coastal Mound (Safe Haven)",
    description := "A large shell mound near the coast, offering safety.",
    connections := [], hazards := [], resource_availability := [], is_destination := true }

/-- A running game: one healthy member at the hammock, default resources. -/
def baseState : GameState :=
  { GameState.make with party_members := [chayton], current_location := some hammock }

/-- A two-member party matching the food-consumption scenario of the spec
(hunger 90 and 50), with exactly one unit of food. -/
def c1State : GameState :=
  { baseState with
    party_members := [hungry90, hungry50]
    resources := { baseState.resources with food := 1 } }

/-- A state whose game is already over. -/
def gameOverState : GameState := { baseState with game_over := true }

/-- A running state at the moment `time_remaining` reaches 0, away from any
destination, with a living member. -/
def timeZeroState : GameState := { baseState with time_remaining := 0 }

/-- A nonempty party whose only member has perished. -/
def allDeadState : GameState := { baseState with party_members := [ghost] }

/-- A state whose canoe is already destroyed. -/
def canoeGoneState : GameState :=
  { baseState with resources := { baseState.resources with canoe_health := 0 } }

/-- A probability table assigning trigger probability 1.0 to the canoe-damaging
hazard, as posited by the hazard-resolution scenario. -/
def probOne : List (String × ℚ) := [("submerged logs", 1)]

/-- The all-perished party placed at the hazard location. -/
def deadAtSlough : GameState :=
  { baseState with party_members := [ghost], current_location := some slough }

/-- A living party at the hazard location with a canoe on 3 health, below the
minimum damage of the hazard. -/
def lowCanoeAtSlough : GameState :=
  { baseState with
    current_location := some slough
    resources := { baseState.resources with canoe_health := 3 } }


/-- A member constructed with an explicit out-of-range `initial_health`. -/
def overMaxInit : PartyMember := PartyMember.make ("Custom") 100 100 (some 150) none

/-- A member constructed with explicit `initial_health = 0`. -/
def zeroInit : PartyMember := PartyMember.make ("Zed") 100 100 (some 0) none

/-- A living member with hunger 50 (used for the `change_hunger` counterexample). -/
def hungerFifty : PartyMember := PartyMember.make ("M") 100 100 none (some 50)

/-- C1: the claim says `advance_day` on a running state runs daily food
consumption (hungriest member fed first), then per-member effects, then
game-over evaluation.  On the spec scenario itself (members at hunger 90
and 50, food = 1) the code consumes no food at all: `advance_day` has no food
consumption step, and its per-member effects pass raises `TypeError` because
`apply_daily_party_effects` calls `member.apply_daily_effects()` without the
required `game_state` argument, so the call never reaches game-over
evaluation. -/
theorem advance_day_food_scenario_raises :
    c1State.game_over = false ∧
    c1State.resources.food = 1 ∧
    c1State.party_members.map (fun m => m.hunger) = [90, 50] ∧
    c1State.party_members.map (fun m => m.is_alive) = [true, true] ∧
    c1State.advance_day =
      .error ("TypeError: apply_daily_effects() missing 1 required positional argument: \x27game_state\x27") := by
  exact ⟨rfl, rfl, by decide, by decide, rfl⟩

/-- C3: the claim says no core operation raises across the action-execution
boundary.  Two core operations do raise: `apply_daily_party_effects` raises
`TypeError` for any party with a living member (missing `game_state` call
argument), and `found_berries_effect` raises `IndexError` when the poison
roll fires on a nonempty party with no living member (`random.choice` on an
empty living-member list). -/
theorem core_operations_raise :
    baseState.party_members.any (fun m => m.is_alive) = true ∧
    baseState.apply_daily_party_effects =
      .error ("TypeError: apply_daily_effects() missing 1 required positional argument: \x27game_state\x27") ∧
    allDeadState.party_members ≠ [] ∧
    allDeadState.party_members.any (fun m => m.is_alive) = false ∧
    found_berries_effect allDeadState [0, 0] =
      .error ("IndexError: Cannot choose from an empty sequence") := by
  exact ⟨by decide, rfl, by decide, by decide, rfl⟩

/-- C2 counterexample: the claim says `time_remaining ≤ 0` is a loss.  In the
code the test is `time_remaining < 0`: a running state with
`time_remaining = 0`, a living party and a non-destination location passes
game-over evaluation completely unchanged — no loss is recorded. -/
theorem check_game_over_time_zero_no_loss :
    timeZeroState.game_over = false ∧
    timeZeroState.time_remaining ≤ 0 ∧
    timeZeroState.current_location.map (fun l => l.is_destination) = some false ∧
    timeZeroState.party_members.any (fun m => m.is_alive) = true ∧
    timeZeroState.check_game_over_conditions = timeZeroState := by
  exact ⟨rfl, by decide, by decide, by decide, by decide⟩

/-- C4 counterexample: the claimed invariant fails (a) at construction with an
explicit out-of-range `initial_health` (`__init__` does not clamp),
(b) at construction with `initial_health = 0` (health 0 but no "perished"
tag), (c) after `add_status_effect("perished")` on a living member, and
(d) after `remove_status_effect("perished")` on a perished member. -/
theorem partyMember_invariant_violations :
    (overMaxInit.health = 150 ∧ overMaxInit.max_health = 100 ∧
      ¬ overMaxInit.health ≤ overMaxInit.max_health) ∧
    (zeroInit.health = 0 ∧ "perished" ∉ zeroInit.status_effects) ∧
    ((chayton.add_status_effect ("perished") [] false).1.health = 100 ∧
      "perished" ∈ (chayton.add_status_effect ("perished") [] false).1.status_effects) ∧
    ((ghost.remove_status_effect ("perished") [] false).1.health = 0 ∧
      "perished" ∉ (ghost.remove_status_effect ("perished") [] false).1.status_effects) := by
  decide

/-- C5 counterexample: once `game_over` is true, `advance_day` leaves every
state field unchanged except that it does append the "Cannot advance day"
message to the log — the claim that nothing is appended is false. -/
theorem advance_day_game_over_appends_log :
    gameOverState.game_over = true ∧
    gameOverState.advance_day =
      .ok (gameOverState.log_message ("Cannot advance day: Game is already over.")) ∧
    (gameOverState.log_message ("Cannot advance day: Game is already over.")).message_log ≠
      gameOverState.message_log := by
  exact ⟨rfl, rfl, by decide⟩

/-- C6 counterexample: `change_hunger` does not early-return on non-positive
amounts; a negative amount lowers a living member hunger (that is the daily
metabolic mechanism), so the claim that health and hunger are left unchanged
for every amount ≤ 0 fails at amount −20. -/
theorem change_hunger_negative_changes_hunger :
    ((-20 : Int) ≤ 0) ∧ hungerFifty.hunger = 50 ∧
    (hungerFifty.change_hunger (-20) [] false).1.hunger = 30 := by
  decide

/-- C8 counterexample: with the posited single canoe hazard at probability 1.0
and range [5, 15], one hazard-resolution call (a) does not touch the canoe at
all when no party member is alive (the function returns before the hazard
loop), and (b) with a living member but `canoe_health = 3` reduces the canoe
by only 3, below the range minimum — so "always reduces canoe_health by an
amount inside that range" fails. -/
theorem check_travel_hazards_scenario_fails :
    (assocGetD probOne ("submerged logs") 0 = 1 ∧
      assocFind? HAZARD_CANOE_DAMAGE ("submerged logs") = some (5, 15)) ∧
    (check_travel_hazards probOne HAZARD_CANOE_DAMAGE [] deadAtSlough [0, 0]).1 = deadAtSlough ∧
    ((check_travel_hazards probOne HAZARD_CANOE_DAMAGE [] lowCanoeAtSlough [0, 0]).1.resources.canoe_health = 0 ∧
      lowCanoeAtSlough.resources.canoe_health -
        (check_travel_hazards probOne HAZARD_CANOE_DAMAGE [] lowCanoeAtSlough [0, 0]).1.resources.canoe_health = 3 ∧
      ¬ ((5 : Int) ≤ 3)) := by
  decide

/-- C9 counterexample: on an already-destroyed canoe (`canoe_health = 0`) the
storm effect indeed leaves the value at 0, but the returned message still
reports the freshly sampled damage amount (17 resp. 5 here) — the message
varies with a sample that was never applied — so the claim that the message
reflects that no damage was taken is false. -/
theorem storm_message_reports_phantom_damage :
    canoeGoneState.resources.canoe_health = 0 ∧
    (sudden_storm_effect canoeGoneState [12, 300]).1.resources.canoe_health = 0 ∧
    (sudden_storm_effect canoeGoneState [0, 300]).1.resources.canoe_health = 0 ∧
    (sudden_storm_effect canoeGoneState [12, 300]).2.2 =
      "A sudden thunderstorm hits! The canoe is battered by wind and waves, taking 17 damage (Health: 0). The canoe is destroyed!" ∧
    (sudden_storm_effect canoeGoneState [0, 300]).2.2 =
      "A sudden thunderstorm hits! The canoe is battered by wind and waves, taking 5 damage (Health: 0). The canoe is destroyed!" ∧
    (sudden_storm_effect canoeGoneState [12, 300]).2.2 ≠
      (sudden_storm_effect canoeGoneState [0, 300]).2.2 := by
  decide

/-- C5 (amended): once `game_over` is true, `advance_day` is the identity on
every field except the message log, to which it appends exactly the refusal
message. -/
theorem advance_day_game_over_log_only (s : GameState) (h : s.game_over = true) :
    s.advance_day =
      .ok { s with message_log := s.message_log ++ ["Cannot advance day: Game is already over."] } := by
  simp [GameState.advance_day, GameState.log_message, h]

/-- Witness for `advance_day_game_over_log_only` at a concrete game-over state. -/
theorem advance_day_game_over_log_only_witness :
    gameOverState.advance_day =
      .ok { gameOverState with
            message_log := gameOverState.message_log ++ ["Cannot advance day: Game is already over."] } :=
  advance_day_game_over_log_only gameOverState rfl

/-- The method `add_status_effect` never changes the vital fields, only the tag set. -/
theorem add_status_effect_vitals (m : PartyMember) (e : String) (log : List String) (b : Bool) :
    (m.add_status_effect e log b).1.name = m.name ∧
    (m.add_status_effect e log b).1.max_health = m.max_health ∧
    (m.add_status_effect e log b).1.max_hunger = m.max_hunger ∧
    (m.add_status_effect e log b).1.health = m.health ∧
    (m.add_status_effect e log b).1.hunger = m.hunger := by
  unfold PartyMember.add_status_effect
  split_ifs <;> exact ⟨rfl, rfl, rfl, rfl, rfl⟩

/-- The method `remove_status_effect` never changes the vital fields, only the tag set. -/
theorem remove_status_effect_vitals (m : PartyMember) (e : String) (log : List String) (b : Bool) :
    (m.remove_status_effect e log b).1.name = m.name ∧
    (m.remove_status_effect e log b).1.max_health = m.max_health ∧
    (m.remove_status_effect e log b).1.max_hunger = m.max_hunger ∧
    (m.remove_status_effect e log b).1.health = m.health ∧
    (m.remove_status_effect e log b).1.hunger = m.hunger := by
  unfold PartyMember.remove_status_effect
  split_ifs <;> exact ⟨rfl, rfl, rfl, rfl, rfl⟩

/-- C6 (amended): `take_damage` and `heal` are complete no-ops for every
amount ≤ 0; `change_hunger` has no such guard — with amount 0 on a living
member it leaves health alone and re-clamps hunger into [0, max_hunger], and
with a negative amount it lowers hunger (clamped), the daily metabolic
mechanism. -/
theorem nonpositive_amount_behaviour :
    (∀ (m : PartyMember) (a : Int) (log : List String) (b : Bool),
      a ≤ 0 → m.take_damage a log b = (m, log)) ∧
    (∀ (m : PartyMember) (a : Int) (log : List String) (b : Bool),
      a ≤ 0 → m.heal a log b = (m, log)) ∧
    (∀ (m : PartyMember) (log : List String) (b : Bool), m.is_alive = true →
      (m.change_hunger 0 log b).1.health = m.health ∧
      (m.change_hunger 0 log b).1.hunger = max 0 (min m.max_hunger m.hunger)) ∧
    (∀ (m : PartyMember) (a : Int) (log : List String) (b : Bool),
      a < 0 → m.is_alive = true →
      (m.change_hunger a log b).1.health = m.health ∧
      (m.change_hunger a log b).1.hunger = max 0 (min m.max_hunger (m.hunger + a))) := by
  refine ⟨?_, ?_, ?_, ?_⟩
  · intro m a log b ha
    unfold PartyMember.take_damage
    rw [if_pos (Or.inl ha)]
  · intro m a log b ha
    unfold PartyMember.heal
    rw [if_pos (Or.inl ha)]
  · intro m log b halive
    unfold PartyMember.change_hunger
    rw [halive]
    simp only [Bool.true_eq_false, if_false]
    constructor
    · split_ifs <;>
        simp [add_status_effect_vitals, remove_status_effect_vitals]
    · split_ifs <;>
        simp [add_status_effect_vitals, remove_status_effect_vitals]
  · intro m a log b ha halive
    unfold PartyMember.change_hunger
    rw [halive]
    simp only [Bool.true_eq_false, if_false]
    constructor
    · split_ifs <;>
        simp [add_status_effect_vitals, remove_status_effect_vitals]
    · split_ifs <;>
        simp [add_status_effect_vitals, remove_status_effect_vitals]

/-- Witness for `nonpositive_amount_behaviour` at concrete members. -/
theorem nonpositive_amount_behaviour_witness :
    (hungerFifty.take_damage (-3) ["l"] true = (hungerFifty, ["l"])) ∧
    (hungerFifty.heal 0 [] false = (hungerFifty, [])) ∧
    (hungerFifty.change_hunger 0 [] false).1.hunger = 50 := by
  refine ⟨nonpositive_amount_behaviour.1 hungerFifty (-3) ["l"] true (by decide),
    nonpositive_amount_behaviour.2.1 hungerFifty 0 [] false (by decide), ?_⟩
  have h := (nonpositive_amount_behaviour.2.2.1 hungerFifty [] false (by decide)).2
  rw [h]
  decide

/-- Truthiness of `self.current_location and self.current_location.is_destination`. -/
def GameState.atDestination (s : GameState) : Bool :=
  match s.current_location with
  | some loc => loc.is_destination
  | none => false

/-- C2 (amended): game-over evaluation on a running state decides in fixed
priority order, first match wins: (1) a destination location wins regardless
of `time_remaining`; (2) `time_remaining < 0` (strictly, not ≤ 0) loses with
the fixed ran-out-of-time reason; (3) a fully-perished party loses with the
fixed perished reason; otherwise the game stays running, a destroyed canoe
producing only a warning log entry. -/
theorem check_game_over_conditions_priority (s : GameState) (h : s.game_over = false) :
    (∀ loc : Location, s.current_location = some loc → loc.is_destination = true →
      s.check_game_over_conditions =
        s.set_game_over true ("Congratulations! The party reached " ++ loc.name ++ " safely.")) ∧
    (s.atDestination = false → s.time_remaining < 0 →
      s.check_game_over_conditions =
        s.set_game_over false ("The impending disaster arrived... you ran out of time.")) ∧
    (s.atDestination = false → 0 ≤ s.time_remaining →
      s.party_members.any (fun m => m.is_alive) = false →
      s.check_game_over_conditions =
        s.set_game_over false ("The entire party has perished in the Everglades.")) ∧
    (s.atDestination = false → 0 ≤ s.time_remaining →
      s.party_members.any (fun m => m.is_alive) = true →
      s.check_game_over_conditions.game_over = false ∧
      (s.resources.canoe_health ≤ 0 →
        s.check_game_over_conditions =
          s.log_message ("Warning: The canoe has been destroyed!")) ∧
      (0 < s.resources.canoe_health → s.check_game_over_conditions = s)) := by
  refine ⟨?_, ?_, ?_, ?_⟩
  · intro loc hloc hdest
    simp [GameState.check_game_over_conditions, h, hloc, hdest]
  · intro hdest ht
    unfold GameState.check_game_over_conditions
    rw [h]
    simp only [Bool.false_eq_true, if_false]
    cases hloc : s.current_location with
    | none => simp [GameState.check_game_over_tail, ht]
    | some loc =>
        have : loc.is_destination = false := by
          simpa [GameState.atDestination, hloc] using hdest
        simp [this, GameState.check_game_over_tail, ht]
  · intro hdest ht hper
    unfold GameState.check_game_over_conditions
    rw [h]
    simp only [Bool.false_eq_true, if_false]
    have hnt : ¬ s.time_remaining < 0 := by omega
    cases hloc : s.current_location with
    | none => simp [GameState.check_game_over_tail, hnt, hper]
    | some loc =>
        have : loc.is_destination = false := by
          simpa [GameState.atDestination, hloc] using hdest
        simp [this, GameState.check_game_over_tail, hnt, hper]
  · intro hdest ht halive
    have hnt : ¬ s.time_remaining < 0 := by omega
    have htail : s.check_game_over_conditions =
        (if s.resources.canoe_health ≤ 0 then
          s.log_message ("Warning: The canoe has been destroyed!") else s) := by
      unfold GameState.check_game_over_conditions
      rw [h]
      simp only [Bool.false_eq_true, if_false]
      cases hloc : s.current_location with
      | none => simp [GameState.check_game_over_tail, hnt, halive]
      | some loc =>
          have : loc.is_destination = false := by
            simpa [GameState.atDestination, hloc] using hdest
          simp [this, GameState.check_game_over_tail, hnt, halive]
    refine ⟨?_, ?_, ?_⟩
    · rw [htail]
      split_ifs <;> simp [GameState.log_message, h]
    · intro hc
      rw [htail, if_pos hc]
    · intro hc
      rw [htail, if_neg (by omega)]

/-- A running state sitting on the destination with `time_remaining = 0`. -/
def destTimeZero : GameState :=
  { baseState with current_location := some coastalMound, time_remaining := 0 }

/-- Witness for `check_game_over_conditions_priority`: destination with
`time_remaining = 0` is a WIN (destination check precedes the time check). -/
theorem check_game_over_conditions_priority_witness :
    destTimeZero.check_game_over_conditions =
      destTimeZero.set_game_over true
        ("Congratulations! The party reached " ++ coastalMound.name ++ " safely.") :=
  (check_game_over_conditions_priority destTimeZero rfl).1 coastalMound rfl rfl

/-- Calling `change_hunger (-10)` on a living, non-starving member whose hunger sits
strictly above the starving band (and within `max_hunger`) just lowers hunger
by 10: no clamping, no starving transition, no log entry. -/
theorem change_hunger_minus10 (m : PartyMember) (log : List String) (b : Bool)
    (halive : m.is_alive = true) (hns : "starving" ∉ m.status_effects)
    (h10 : 10 < m.hunger) (hmx : m.hunger ≤ m.max_hunger) :
    m.change_hunger (-10) log b = ({ m with hunger := m.hunger - 10 }, log) := by
  unfold PartyMember.change_hunger
  rw [halive]
  simp only [Bool.true_eq_false, if_false]
  have e1 : max 0 (min m.max_hunger (m.hunger + -10)) = m.hunger - 10 := by
    rw [min_eq_right (by omega : m.hunger + -10 ≤ m.max_hunger)]
    rw [max_eq_right (by omega : (0 : Int) ≤ m.hunger + -10)]
    omega
  rw [e1]
  rw [if_neg (by rintro ⟨h1, -⟩; omega)]
  rw [if_neg (by rintro ⟨-, h2⟩; simp at h2; exact hns h2)]

/-- Calling `take_damage` on a member who survives the hit (positive amount strictly
below current health) just subtracts the amount, logging when a game state
was passed. -/
theorem take_damage_survives (m : PartyMember) (amt : Int) (log : List String) (b : Bool)
    (hpos : 0 < amt) (hsurv : 0 < m.health - amt) :
    m.take_damage amt log b =
      ({ m with health := m.health - amt },
        if b then log ++ [takeDamageMsg m.name amt (m.health - amt) m.max_health] else log) := by
  have halive : m.is_alive = true := by
    simp only [PartyMember.is_alive]
    simp only [decide_eq_true_eq]
    omega
  unfold PartyMember.take_damage
  rw [if_neg (by rw [halive]; simp; omega)]
  have e1 : max 0 (m.health - amt) = m.health - amt := max_eq_right (by omega)
  rw [e1]
  have halive1 : ({ m with health := m.health - amt } : PartyMember).is_alive = true := by
    simp only [PartyMember.is_alive]
    simp only [decide_eq_true_eq]
    omega
  rw [if_neg (by rw [halive1]; simp)]

/-- A member at full health carrying "sick" and "snakebitten", hunger 50. -/
def sickSnake : PartyMember :=
  { name := "Koda", max_health := 100, max_hunger := 100, health := 100, hunger := 50,
    status_effects := ["sick", "snakebitten"] }

/-- The member component of `take_damage`, as a log-free case analysis. -/
theorem take_damage_fst (m : PartyMember) (a : Int) (log : List String) (b : Bool) :
    (m.take_damage a log b).1 =
      if a ≤ 0 ∨ m.is_alive = false then m
      else if decide (0 < max 0 (m.health - a)) = false ∧ "perished" ∉ m.status_effects then
        { m with health := max 0 (m.health - a),
                 status_effects := "perished" :: m.status_effects }
      else { m with health := max 0 (m.health - a) } := by
  simp only [PartyMember.take_damage, PartyMember.add_status_effect, PartyMember.is_alive]
  split_ifs <;> simp_all

/-- The member component of `heal`, as a log-free case analysis. -/
theorem heal_fst (m : PartyMember) (a : Int) (log : List String) (b : Bool) :
    (m.heal a log b).1 =
      if a ≤ 0 ∨ m.is_alive = false then m
      else { m with health := min m.max_health (m.health + a) } := by
  simp only [PartyMember.heal]
  split_ifs <;> simp_all

/-- The member component of `change_hunger`, as a log-free case analysis. -/
theorem change_hunger_fst (m : PartyMember) (a : Int) (log : List String) (b : Bool) :
    (m.change_hunger a log b).1 =
      if m.is_alive = false then m
      else if max 0 (min m.max_hunger (m.hunger + a)) ≤ 0 ∧ "starving" ∉ m.status_effects then
        { m with hunger := max 0 (min m.max_hunger (m.hunger + a)),
                 status_effects := "starving" :: m.status_effects }
      else if 10 < max 0 (min m.max_hunger (m.hunger + a)) ∧ "starving" ∈ m.status_effects then
        { m with hunger := max 0 (min m.max_hunger (m.hunger + a)),
                 status_effects := m.status_effects.filter (fun t => t != "starving") }
      else { m with hunger := max 0 (min m.max_hunger (m.hunger + a)) } := by
  simp only [PartyMember.change_hunger, PartyMember.add_status_effect,
    PartyMember.remove_status_effect, PartyMember.is_alive]
  split_ifs <;> simp_all

/-- The claimed per-member invariant: vitals clamped to their bounds and the
"perished" tag present exactly on zero health. -/
def MemberInv (m : PartyMember) : Prop :=
  0 ≤ m.health ∧ m.health ≤ m.max_health ∧ 0 ≤ m.hunger ∧ m.hunger ≤ m.max_hunger ∧
  ("perished" ∈ m.status_effects ↔ m.health = 0)

instance (m : PartyMember) : Decidable (MemberInv m) := by
  unfold MemberInv; infer_instance

/-- A living member satisfying the invariant does not carry "perished". -/
theorem memberInv_alive_not_perished (m : PartyMember) (h : MemberInv m)
    (hal : 0 < m.health) : "perished" ∉ m.status_effects := fun hm => by
  have := h.2.2.2.2.mp hm; omega

/-- An `is_alive ≠ false` hypothesis yields positive health. -/
theorem alive_of_not_false (m : PartyMember) (h : ¬ m.is_alive = false) : 0 < m.health := by
  have htrue : m.is_alive = true := by
    cases hbool : m.is_alive with
    | true => rfl
    | false => exact absurd hbool h
  rw [PartyMember.is_alive] at htrue
  exact of_decide_eq_true htrue

/-- The method `take_damage` preserves the member invariant. -/
theorem take_damage_inv (m : PartyMember) (a : Int) (log : List String) (b : Bool)
    (h : MemberInv m) : MemberInv (m.take_damage a log b).1 := by
  obtain ⟨h1, h2, h3, h4, h5⟩ := h
  rw [take_damage_fst]
  split_ifs with hc hd
  · exact ⟨h1, h2, h3, h4, h5⟩
  · push_neg at hc
    have hal : 0 < m.health := alive_of_not_false m hc.2
    have hz : max 0 (m.health - a) = 0 := by
      have := of_decide_eq_false hd.1
      have hge : (0 : Int) ≤ max 0 (m.health - a) := le_max_left _ _
      omega
    refine ⟨?_, ?_, h3, h4, ?_⟩
    · simp only; omega
    · simp only; omega
    · simp [List.mem_cons, hz]
  · push_neg at hc
    have hal : 0 < m.health := alive_of_not_false m hc.2
    have hnp : "perished" ∉ m.status_effects :=
      memberInv_alive_not_perished m ⟨h1, h2, h3, h4, h5⟩ hal
    have hpos : 0 < max 0 (m.health - a) := by
      rcases hdec : decide (0 < max 0 (m.health - a)) with _ | _
      · exact absurd ⟨hdec, hnp⟩ hd
      · exact of_decide_eq_true hdec
    refine ⟨?_, ?_, h3, h4, ?_⟩
    · exact le_max_left _ _
    · simp only; exact max_le (by omega) (by omega)
    · simp only
      constructor
      · intro hm; exact absurd hm hnp
      · intro he; omega

/-- The method `heal` preserves the member invariant. -/
theorem heal_inv (m : PartyMember) (a : Int) (log : List String) (b : Bool)
    (h : MemberInv m) : MemberInv (m.heal a log b).1 := by
  obtain ⟨h1, h2, h3, h4, h5⟩ := h
  rw [heal_fst]
  split_ifs with hc
  · exact ⟨h1, h2, h3, h4, h5⟩
  · push_neg at hc
    have hal : 0 < m.health := alive_of_not_false m hc.2
    have hnp : "perished" ∉ m.status_effects :=
      memberInv_alive_not_perished m ⟨h1, h2, h3, h4, h5⟩ hal
    have hpos : 0 < min m.max_health (m.health + a) := lt_min (by omega) (by omega)
    refine ⟨by simp only; omega, by simp only; exact min_le_left _ _, h3, h4, ?_⟩
    simp only
    constructor
    · intro hm; exact absurd hm hnp
    · intro he; omega

/-- The method `change_hunger` preserves the member invariant. -/
theorem change_hunger_inv (m : PartyMember) (a : Int) (log : List String) (b : Bool)
    (h : MemberInv m) : MemberInv (m.change_hunger a log b).1 := by
  obtain ⟨h1, h2, h3, h4, h5⟩ := h
  have hb1 : (0 : Int) ≤ max 0 (min m.max_hunger (m.hunger + a)) := le_max_left _ _
  have hb2 : max 0 (min m.max_hunger (m.hunger + a)) ≤ m.max_hunger :=
    max_le (by omega) (min_le_left _ _)
  rw [change_hunger_fst]
  split_ifs with hc hz hr
  · exact ⟨h1, h2, h3, h4, h5⟩
  · refine ⟨h1, h2, hb1, hb2, ?_⟩
    simp only [List.mem_cons]
    constructor
    · rintro (he | hm)
      · exact absurd he.symm (by decide)
      · exact h5.mp hm
    · intro he; right; exact h5.mpr he
  · refine ⟨h1, h2, hb1, hb2, ?_⟩
    simp only [List.mem_filter]
    constructor
    · rintro ⟨hm, -⟩; exact h5.mp hm
    · intro he; exact ⟨h5.mpr he, by decide⟩
  · exact ⟨h1, h2, hb1, hb2, h5⟩

/-- The method `apply_daily_effects` preserves the member invariant. -/
theorem apply_daily_effects_inv (m : PartyMember) (log : List String)
    (h : MemberInv m) : MemberInv (m.apply_daily_effects log).1 := by
  simp only [PartyMember.apply_daily_effects]
  split_ifs <;>
    solve_by_elim [take_damage_inv, change_hunger_inv]

/-- Adding a tag other than "perished" never changes "perished" membership. -/
theorem add_status_effect_mem_perished (m : PartyMember) (t : String)
    (log : List String) (b : Bool) (ht : t ≠ "perished") :
    ("perished" ∈ (m.add_status_effect t log b).1.status_effects ↔
      "perished" ∈ m.status_effects) := by
  unfold PartyMember.add_status_effect
  split_ifs <;> simp [List.mem_cons, Ne.symm ht]

/-- Removing a tag other than "perished" never changes "perished" membership. -/
theorem remove_status_effect_mem_perished (m : PartyMember) (t : String)
    (log : List String) (b : Bool) (ht : t ≠ "perished") :
    ("perished" ∈ (m.remove_status_effect t log b).1.status_effects ↔
      "perished" ∈ m.status_effects) := by
  unfold PartyMember.remove_status_effect
  split_ifs <;> simp [List.mem_filter, bne_iff_ne, Ne.symm ht]

/-- The method `add_status_effect` with a tag other than "perished" preserves the member
invariant. -/
theorem add_status_effect_inv (m : PartyMember) (t : String) (log : List String)
    (b : Bool) (ht : t ≠ "perished") (h : MemberInv m) :
    MemberInv (m.add_status_effect t log b).1 := by
  obtain ⟨h1, h2, h3, h4, h5⟩ := h
  obtain ⟨v1, v2, v3, v4, v5⟩ := add_status_effect_vitals m t log b
  refine ⟨by rw [v4]; exact h1, by rw [v4, v2]; exact h2,
    by rw [v5]; exact h3, by rw [v5, v3]; exact h4, ?_⟩
  rw [add_status_effect_mem_perished m t log b ht, v4]
  exact h5

/-- The method `remove_status_effect` with a tag other than "perished" preserves the
member invariant. -/
theorem remove_status_effect_inv (m : PartyMember) (t : String) (log : List String)
    (b : Bool) (ht : t ≠ "perished") (h : MemberInv m) :
    MemberInv (m.remove_status_effect t log b).1 := by
  obtain ⟨h1, h2, h3, h4, h5⟩ := h
  obtain ⟨v1, v2, v3, v4, v5⟩ := remove_status_effect_vitals m t log b
  refine ⟨by rw [v4]; exact h1, by rw [v4, v2]; exact h2,
    by rw [v5]; exact h3, by rw [v5, v3]; exact h4, ?_⟩
  rw [remove_status_effect_mem_perished m t log b ht, v4]
  exact h5

/-- C4 (amended): `is_alive() ⇔ health > 0` holds unconditionally; the clamp
and "perished"-iff invariant is established by construction with in-range
initial values (`__init__` does not clamp, so out-of-range explicit values are
excluded) and preserved by `take_damage`, `heal`, `change_hunger`,
`apply_daily_effects`, and by `add_status_effect`/`remove_status_effect` for
every tag other than "perished" (directly adding or removing "perished" can
break the iff). -/
theorem partyMember_invariant_preserved :
    (∀ m : PartyMember, m.is_alive = true ↔ 0 < m.health) ∧
    (∀ (name : String) (mh mg h0 g0 : Int), 0 < h0 → h0 ≤ mh → 0 ≤ g0 → g0 ≤ mg →
      MemberInv (PartyMember.make name mh mg (some h0) (some g0))) ∧
    (∀ (name : String) (mh mg : Int), 0 < mh → 0 ≤ mg →
      MemberInv (PartyMember.make name mh mg)) ∧
    (∀ (m : PartyMember) (a : Int) (log : List String) (b : Bool),
      MemberInv m → MemberInv (m.take_damage a log b).1) ∧
    (∀ (m : PartyMember) (a : Int) (log : List String) (b : Bool),
      MemberInv m → MemberInv (m.heal a log b).1) ∧
    (∀ (m : PartyMember) (a : Int) (log : List String) (b : Bool),
      MemberInv m → MemberInv (m.change_hunger a log b).1) ∧
    (∀ (m : PartyMember) (log : List String),
      MemberInv m → MemberInv (m.apply_daily_effects log).1) ∧
    (∀ (m : PartyMember) (t : String) (log : List String) (b : Bool), t ≠ "perished" →
      MemberInv m → MemberInv (m.add_status_effect t log b).1) ∧
    (∀ (m : PartyMember) (t : String) (log : List String) (b : Bool), t ≠ "perished" →
      MemberInv m → MemberInv (m.remove_status_effect t log b).1) := by
  refine ⟨?_, ?_, ?_, take_damage_inv, heal_inv, change_hunger_inv,
    apply_daily_effects_inv, add_status_effect_inv, remove_status_effect_inv⟩
  · intro m
    simp [PartyMember.is_alive]
  · intro name mh mg h0 g0 hp hle hg hgle
    refine ⟨by simp [PartyMember.make]; omega, by simp [PartyMember.make]; omega,
      by simp [PartyMember.make]; omega, by simp [PartyMember.make]; omega, ?_⟩
    simp [PartyMember.make]
    omega
  · intro name mh mg hp hg
    refine ⟨by simp [PartyMember.make]; omega, by simp [PartyMember.make],
      by simp [PartyMember.make]; omega, by simp [PartyMember.make], ?_⟩
    simp [PartyMember.make]
    omega

/-- Witness for `partyMember_invariant_preserved`: a concretely constructed
member satisfies the invariant, and still does after a survivable and a
lethal hit. -/
theorem partyMember_invariant_preserved_witness :
    MemberInv (PartyMember.make ("W") 110 100 (some 90) (some 80)) ∧
    MemberInv ((PartyMember.make ("W") 110 100 (some 90) (some 80)).take_damage 95 [] true).1 := by
  have h0 := partyMember_invariant_preserved.2.1 "W" 110 100 90 80
    (by decide) (by decide) (by decide) (by decide)
  exact ⟨h0, partyMember_invariant_preserved.2.2.2.1 _ 95 [] true h0⟩

/-- The draw `random.random()` always lands strictly below 1, so a probability-1.0
hazard always triggers. -/
theorem randFloat_lt_one (g : Rng) : (randFloat g).1 < 1 := by
  unfold randFloat
  simp only
  rw [Rat.mkRat_eq_div]
  rw [div_lt_one (by norm_num)]
  have h := Nat.mod_lt (rngNext g).1 (by norm_num : 0 < 1000)
  exact_mod_cast h

/-- The draw `random.randint(lo, hi)` lands inside [lo, hi]. -/
theorem randInt_bounds (lo hi : Int) (h : lo ≤ hi) (g : Rng) :
    lo ≤ (randInt lo hi g).1 ∧ (randInt lo hi g).1 ≤ hi := by
  unfold randInt
  simp only
  have h1 : 0 ≤ ((rngNext g).1 : Int) % (hi - lo + 1) :=
    Int.emod_nonneg _ (by omega)
  have h2 : ((rngNext g).1 : Int) % (hi - lo + 1) < hi - lo + 1 :=
    Int.emod_lt_of_pos _ (by omega)
  omega

/-- The method `log_message` only touches the message log. -/
theorem log_message_resources (s : GameState) (msg : String) :
    (s.log_message msg).resources = s.resources := rfl

/-- The log after `log_message` is the old log plus the new entry. -/
theorem log_message_log (s : GameState) (msg : String) :
    (s.log_message msg).message_log = s.message_log ++ [msg] := rfl

/-- C8 (amended): with at least one living member, a positive canoe health,
and a single vehicle-damaging hazard of trigger probability 1.0 and range
[lo, hi] (0 < lo ≤ hi), one hazard-resolution call samples a damage d inside
the range and clamps `canoe_health` to `max 0 (canoe_health - d)`: a
reduction of exactly d (inside the range) whenever `canoe_health ≥ hi`, never
below 0, with the critical-damage message logged last when the canoe is
driven to 0. -/
theorem check_travel_hazards_damage_in_range
    (probT : List (String × ℚ)) (canoeT personT : List (String × Int × Int))
    (s : GameState) (g : Rng) (loc : Location) (hz : String) (lo hi : Int)
    (hloc : s.current_location = some loc) (hhaz : loc.hazards = [hz])
    (hp : assocGetD probT hz 0 = 1)
    (hc : assocFind? canoeT hz = some (lo, hi))
    (hlohi : lo ≤ hi)
    (hlive : livingIdxs s.party_members ≠ [])
    (hcanoe : 0 < s.resources.canoe_health) :
    ∃ d : Int, lo ≤ d ∧ d ≤ hi ∧
      (check_travel_hazards probT canoeT personT s g).1.resources.canoe_health =
        max 0 (s.resources.canoe_health - d) ∧
      0 ≤ (check_travel_hazards probT canoeT personT s g).1.resources.canoe_health ∧
      (hi ≤ s.resources.canoe_health →
        s.resources.canoe_health -
          (check_travel_hazards probT canoeT personT s g).1.resources.canoe_health = d) ∧
      ((check_travel_hazards probT canoeT personT s g).1.resources.canoe_health = 0 →
        (check_travel_hazards probT canoeT personT s g).1.message_log.getLast? =
          some ("The canoe is critically damaged and unusable!")) := by
  unfold check_travel_hazards
  rw [hloc]
  simp only [hhaz, List.isEmpty_cons, Bool.false_eq_true, if_false]
  split
  · rename_i heq
    exact absurd heq hlive
  · rename_i i rest heq
    simp only [List.foldl_cons, List.foldl_nil]
    unfold hazardStep
    simp only [hp]
    rw [if_pos (randFloat_lt_one g)]
    rw [hc]
    simp only [log_message_resources]
    rw [if_pos hcanoe]
    obtain ⟨hd1, hd2⟩ := randInt_bounds lo hi hlohi (randFloat g).2
    refine ⟨(randInt lo hi (randFloat g).2).1, hd1, hd2, ?_, ?_, ?_, ?_⟩
    · split_ifs <;> rfl
    · split_ifs <;> exact le_max_left _ _
    · intro hge
      split_ifs <;>
        · simp only [GameState.log_message]
          rw [max_eq_right (by omega)]
          omega
    · intro hzero
      split_ifs at hzero ⊢ with hcrit
      · simp only [log_message_log]
        exact List.getLast?_concat _
      · exfalso
        simp only [GameState.log_message] at hzero
        omega

/-- The base party (one living member, canoe at 100) at the hazard location. -/
def partyAtSlough : GameState := { baseState with current_location := some slough }

/-- Witness for `check_travel_hazards_damage_in_range` on a concrete state and
seeded stream. -/
theorem check_travel_hazards_damage_in_range_witness :
    ∃ d : Int, 5 ≤ d ∧ d ≤ 15 ∧
      (check_travel_hazards probOne HAZARD_CANOE_DAMAGE [] partyAtSlough [0, 3]).1.resources.canoe_health =
        max 0 (partyAtSlough.resources.canoe_health - d) ∧
      0 ≤ (check_travel_hazards probOne HAZARD_CANOE_DAMAGE [] partyAtSlough [0, 3]).1.resources.canoe_health ∧
      (15 ≤ partyAtSlough.resources.canoe_health →
        partyAtSlough.resources.canoe_health -
          (check_travel_hazards probOne HAZARD_CANOE_DAMAGE [] partyAtSlough [0, 3]).1.resources.canoe_health = d) ∧
      ((check_travel_hazards probOne HAZARD_CANOE_DAMAGE [] partyAtSlough [0, 3]).1.resources.canoe_health = 0 →
        (check_travel_hazards probOne HAZARD_CANOE_DAMAGE [] partyAtSlough [0, 3]).1.message_log.getLast? =
          some ("The canoe is critically damaged and unusable!")) :=
  check_travel_hazards_damage_in_range probOne HAZARD_CANOE_DAMAGE []
    partyAtSlough [0, 3] slough ("submerged logs") 5 15 rfl rfl (by decide) rfl
    (by decide) (by decide) (by decide)

/-- C9 (amended): on an already-destroyed canoe the storm effect leaves
`canoe_health` at 0 — no further numeric damage — while the returned message
still reports the freshly sampled damage amount (a value in [5, 25]) and the
destruction note, followed by the optional injury sub-message. -/
theorem storm_destroyed_canoe_no_damage (s : GameState) (g : Rng)
    (h : s.resources.canoe_health = 0) :
    (sudden_storm_effect s g).1.resources.canoe_health = 0 ∧
    ∃ (d : Int) (suffix : String), 5 ≤ d ∧ d ≤ 25 ∧
      (sudden_storm_effect s g).2.2 =
        "A sudden thunderstorm hits! " ++
          (stormBatteredMsg d 0 ++ " " ++ "The canoe is destroyed!") ++ suffix := by
  obtain ⟨hd1, hd2⟩ := randInt_bounds 5 25 (by norm_num) g
  have hnew : max 0 (s.resources.canoe_health - (randInt 5 25 g).1) = 0 := by
    rw [h]
    exact max_eq_left (by omega)
  unfold sudden_storm_effect
  simp only [hnew, le_refl, if_true]
  split
  · refine ⟨rfl, (randInt 5 25 g).1, "", hd1, hd2, ?_⟩
    simp [String.append_assoc, String.append_empty]
  · rename_i i rest heq
    split_ifs with hinj
    · refine ⟨rfl, (randInt 5 25 g).1, " " ++
        stormInjuredMsg
          (({ s with resources := { s.resources with canoe_health := 0 } } :
              GameState).party_members.getD
            (choiceNE (i :: rest) (by simp)
              (randFloat (randInt 5 25 g).2).2).1 (PartyMember.make (""))).name
          (randInt 1 10 (choiceNE (i :: rest) (by simp)
            (randFloat (randInt 5 25 g).2).2).2).1, hd1, hd2, ?_⟩
      simp only [String.append_assoc]
    · refine ⟨rfl, (randInt 5 25 g).1, "", hd1, hd2, ?_⟩
      simp [String.append_assoc, String.append_empty]

/-- Witness for `storm_destroyed_canoe_no_damage` at a concrete state/stream. -/
theorem storm_destroyed_canoe_no_damage_witness :
    (sudden_storm_effect canoeGoneState [12, 300]).1.resources.canoe_health = 0 ∧
    ∃ (d : Int) (suffix : String), 5 ≤ d ∧ d ≤ 25 ∧
      (sudden_storm_effect canoeGoneState [12, 300]).2.2 =
        "A sudden thunderstorm hits! " ++
          (stormBatteredMsg d 0 ++ " " ++ "The canoe is destroyed!") ++ suffix :=
  storm_destroyed_canoe_no_damage canoeGoneState [12, 300] rfl

/-- The method `set_game_over` never touches `active_events`. -/
theorem set_game_over_active (s : GameState) (w : Bool) (r : String) :
    (s.set_game_over w r).active_events = s.active_events := by
  unfold GameState.set_game_over
  split_ifs <;> rfl

/-- The method `log_message` never touches `active_events`. -/
theorem log_message_active (s : GameState) (msg : String) :
    (s.log_message msg).active_events = s.active_events := rfl

/-- Loss/warning evaluation never touches `active_events`. -/
theorem check_game_over_tail_active (s : GameState) :
    s.check_game_over_tail.active_events = s.active_events := by
  unfold GameState.check_game_over_tail
  split_ifs <;> simp [set_game_over_active, log_message_active]

/-- Game-over evaluation never touches `active_events`. -/
theorem check_game_over_conditions_active (s : GameState) :
    s.check_game_over_conditions.active_events = s.active_events := by
  unfold GameState.check_game_over_conditions
  split_ifs
  · rfl
  · split
    · split_ifs
      · exact set_game_over_active _ _ _
      · exact check_game_over_tail_active _
    · exact check_game_over_tail_active _

/-- The storm effect never touches `active_events`. -/
theorem storm_active (s : GameState) (g : Rng) :
    (sudden_storm_effect s g).1.active_events = s.active_events := by
  simp only [sudden_storm_effect]
  repeat' first | rfl | split

/-- The berries effect, when it returns, never touches `active_events`. -/
theorem berries_active (s : GameState) (g : Rng) (s1 : GameState) (g1 : Rng)
    (msg : String) (h : found_berries_effect s g = .ok (s1, g1, msg)) :
    s1.active_events = s.active_events := by
  simp only [found_berries_effect] at h
  split_ifs at h
  · split at h
    · exact absurd h (by simp)
    · simp only [Except.ok.injEq, Prod.mk.injEq] at h
      obtain ⟨h1, -⟩ := h
      rw [← h1]
  · simp only [Except.ok.injEq, Prod.mk.injEq] at h
    obtain ⟨h1, -⟩ := h
    rw [← h1]

/-- The snake-bite effect never touches `active_events`. -/
theorem snake_active (s : GameState) (g : Rng) :
    (snake_bite_effect s g).1.active_events = s.active_events := by
  simp only [snake_bite_effect]
  repeat' first | rfl | split

/-- No bound effect, when it returns, touches `active_events`. -/
theorem applyEffect_active (k : EffectKind) (s : GameState) (g : Rng)
    (s1 : GameState) (g1 : Rng) (msg : String)
    (h : applyEffect k s g = .ok (s1, g1, msg)) :
    s1.active_events = s.active_events := by
  cases k with
  | storm =>
      simp only [applyEffect, Except.ok.injEq] at h
      rw [show s1 = (sudden_storm_effect s g).1 from by rw [h]]
      exact storm_active s g
  | berries => exact berries_active s g s1 g1 msg h
  | snake =>
      simp only [applyEffect, Except.ok.injEq] at h
      rw [show s1 = (snake_bite_effect s g).1 from by rw [h]]
      exact snake_active s g

/-- Daily party effects, when they return, never touch `active_events`. -/
theorem apply_daily_party_effects_active (s s1 : GameState)
    (h : s.apply_daily_party_effects = .ok s1) :
    s1.active_events = s.active_events := by
  simp only [GameState.apply_daily_party_effects] at h
  split_ifs at h <;>
    · simp only [Except.ok.injEq] at h
      rw [← h]
      rfl

/-- The method `advance_day`, when it returns, never touches `active_events`. -/
theorem advance_day_active (s s1 : GameState) (h : s.advance_day = .ok s1) :
    s1.active_events = s.active_events := by
  simp only [GameState.advance_day] at h
  split_ifs at h
  · simp only [Except.ok.injEq] at h
    rw [← h]
    rfl
  · split at h
    · exact absurd h (by simp)
    · rename_i s3 heq
      simp only [Except.ok.injEq] at h
      rw [← h, check_game_over_conditions_active]
      rw [apply_daily_party_effects_active _ _ heq]
      rfl

/-- One hazard-loop iteration never touches `active_events`. -/
theorem hazardStep_active (probT : List (String × ℚ))
    (canoeT personT : List (String × Int × Int)) (living : List Nat)
    (hNE : living ≠ []) (acc : GameState × Rng) (hz : String) :
    (hazardStep probT canoeT personT living hNE acc hz).1.active_events =
      acc.1.active_events := by
  simp only [hazardStep]
  repeat' first | rfl | split

/-- Folding the hazard loop never touches `active_events`. -/
theorem hazard_foldl_active (probT : List (String × ℚ))
    (canoeT personT : List (String × Int × Int)) (living : List Nat)
    (hNE : living ≠ []) :
    ∀ (l : List String) (acc : GameState × Rng),
      (l.foldl (hazardStep probT canoeT personT living hNE) acc).1.active_events =
        acc.1.active_events := by
  intro l
  induction l with
  | nil => intro acc; rfl
  | cons x xs ih =>
      intro acc
      simp only [List.foldl_cons]
      rw [ih, hazardStep_active]

/-- The function `check_travel_hazards` never touches `active_events`. -/
theorem check_travel_hazards_active (probT : List (String × ℚ))
    (canoeT personT : List (String × Int × Int)) (s : GameState) (g : Rng) :
    (check_travel_hazards probT canoeT personT s g).1.active_events =
      s.active_events := by
  unfold check_travel_hazards
  split
  · rfl
  · split_ifs
    · rfl
    · split
      · rfl
      · exact hazard_foldl_active _ _ _ _ _ _ _

/-- The method `trigger` is exactly: run the bound effect, then append the event. -/
theorem trigger_eq (e : GameEvent) (s : GameState) (g : Rng)
    (s1 : GameState) (g1 : Rng) (msg : String)
    (h : applyEffect e.effectKind s g = .ok (s1, g1, msg)) :
    e.trigger s g =
      .ok ({ s1 with active_events := s1.active_events ++ [e] }, g1, msg) := by
  unfold GameEvent.trigger
  rw [h]

/-- Triggering a storm-bound event `n` times always succeeds and appends
exactly `n` copies of the event to `active_events`. -/
theorem triggerN_storm (n : Nat) :
    ∀ (e : GameEvent) (s : GameState) (g : Rng), e.effectKind = .storm →
      ∃ (s1 : GameState) (g1 : Rng), triggerN e n s g = .ok (s1, g1) ∧
        s1.active_events = s.active_events ++ List.replicate n e := by
  induction n with
  | zero =>
      intro e s g hk
      exact ⟨s, g, rfl, by simp⟩
  | succ n ih =>
      intro e s g hk
      have happ : applyEffect e.effectKind s g = .ok (sudden_storm_effect s g) := by
        rw [hk]
        rfl
      have happ2 : applyEffect e.effectKind s g =
          .ok ((sudden_storm_effect s g).1, (sudden_storm_effect s g).2.1,
            (sudden_storm_effect s g).2.2) := happ
      have htr := trigger_eq e s g _ _ _ happ2
      obtain ⟨s1, g1, hN, hact⟩ := ih e
        ({ (sudden_storm_effect s g).1 with
            active_events := (sudden_storm_effect s g).1.active_events ++ [e] })
        (sudden_storm_effect s g).2.1 hk
      refine ⟨s1, g1, ?_, ?_⟩
      · show triggerN e (n + 1) s g = .ok (s1, g1)
        unfold triggerN
        rw [htr]
        exact hN
      · rw [hact]
        simp only
        rw [storm_active s g]
        simp [List.replicate_succ]

/-- The Storm/Berries/Snake events as bound by `load_events` (main.py). -/
def stormEvent : GameEvent :=
  { event_id := "storm_01", name := "Sudden Thunderstorm",
    description := "Dark clouds gather rapidly...", event_type := "Weather",
    effectKind := .storm }

/-- C10: `trigger` appends the triggered event to `active_events` after
running the bound effect; no core operation (the three effects, game-over
evaluation, `set_game_over`, `log_message`, daily party effects,
`advance_day`, travel hazard resolution) ever removes entries; consequently
triggering a storm-bound event n times leaves exactly n appended copies. -/
theorem trigger_appends_active_events :
    (∀ (e : GameEvent) (s : GameState) (g : Rng) (n : Nat), e.effectKind = .storm →
      ∃ (s1 : GameState) (g1 : Rng), triggerN e n s g = .ok (s1, g1) ∧
        s1.active_events = s.active_events ++ List.replicate n e) ∧
    (∀ (e : GameEvent) (s : GameState) (g : Rng) (s1 : GameState) (g1 : Rng) (msg : String),
      applyEffect e.effectKind s g = .ok (s1, g1, msg) →
      e.trigger s g =
        .ok ({ s1 with active_events := s1.active_events ++ [e] }, g1, msg)) ∧
    (∀ (k : EffectKind) (s : GameState) (g : Rng) (s1 : GameState) (g1 : Rng) (msg : String),
      applyEffect k s g = .ok (s1, g1, msg) → s1.active_events = s.active_events) ∧
    (∀ s : GameState, s.check_game_over_conditions.active_events = s.active_events) ∧
    (∀ (s : GameState) (w : Bool) (r : String),
      (s.set_game_over w r).active_events = s.active_events) ∧
    (∀ (s : GameState) (msg : String),
      (s.log_message msg).active_events = s.active_events) ∧
    (∀ (s s1 : GameState), s.apply_daily_party_effects = .ok s1 →
      s1.active_events = s.active_events) ∧
    (∀ (s s1 : GameState), s.advance_day = .ok s1 →
      s1.active_events = s.active_events) ∧
    (∀ (probT : List (String × ℚ)) (canoeT personT : List (String × Int × Int))
      (s : GameState) (g : Rng),
      (check_travel_hazards probT canoeT personT s g).1.active_events = s.active_events) :=
  ⟨fun e s g n hk => triggerN_storm n e s g hk, trigger_eq, applyEffect_active,
    check_game_over_conditions_active, set_game_over_active, log_message_active,
    apply_daily_party_effects_active, advance_day_active, check_travel_hazards_active⟩

/-- Witness for `trigger_appends_active_events`: two storm triggers on a
concrete state leave exactly two copies of the event in `active_events`. -/
theorem trigger_appends_active_events_witness :
    ∃ (s1 : GameState) (g1 : Rng), triggerN stormEvent 2 baseState [0, 300, 0, 300] = .ok (s1, g1) ∧
      s1.active_events = baseState.active_events ++ List.replicate 2 stormEvent :=
  trigger_appends_active_events.1 stormEvent baseState [0, 300, 0, 300] 2 rfl

/-- Hunger after the fixed daily −10 metabolic delta, with the clamp of
`change_hunger`. -/
def hungerAfterDaily (m : PartyMember) : Int :=
  max 0 (min m.max_hunger (m.hunger - 10))

/-- Whether "starving" is active right after the daily hunger step: it is
added when the clamped hunger reaches 0, kept while an already-starving
member has not climbed above the hysteresis band (10), removed above it. -/
def starvingAfterDaily (m : PartyMember) : Prop :=
  hungerAfterDaily m ≤ 0 ∨ ("starving" ∈ m.status_effects ∧ hungerAfterDaily m ≤ 10)

instance (m : PartyMember) : Decidable (starvingAfterDaily m) := by
  unfold starvingAfterDaily; infer_instance

/-- The total recurring daily damage of the tags active after the hunger
step: starving 12, sick 3, snakebitten 8 (and nothing else — in particular
"injured" contributes nothing). -/
def dailyDamageOf (m : PartyMember) : Int :=
  (if starvingAfterDaily m then 12 else 0) +
  (if "sick" ∈ m.status_effects then 3 else 0) +
  (if "snakebitten" ∈ m.status_effects then 8 else 0)

/-- One status-damage step of `apply_daily_effects`: damage if the tag is
active, skip otherwise. -/
def dailyStep (tag : String) (amt : Int) (p : PartyMember × List String) :
    PartyMember × List String :=
  if p.1.has_status_effect tag then p.1.take_damage amt p.2 true else p

/-- The three status-damage steps of `apply_daily_effects` in their fixed
source order: starving 12, then sick 3, then snakebitten 8. -/
def dailyChain (p : PartyMember × List String) : PartyMember × List String :=
  dailyStep ("snakebitten") 8 (dailyStep ("sick") 3 (dailyStep ("starving") 12 p))

/-- On a living member, `apply_daily_effects` is literally the hunger step
followed by the three status-damage steps in their fixed order. -/
theorem apply_daily_effects_eq (m : PartyMember) (log : List String)
    (halive : m.is_alive = true) :
    m.apply_daily_effects log = dailyChain (m.change_hunger (-10) log true) := by
  unfold PartyMember.apply_daily_effects dailyChain dailyStep
  rw [halive]
  simp only [Bool.true_eq_false, if_false]

/-- Liveness projected to arithmetic. -/
theorem is_alive_true_iff (m : PartyMember) : m.is_alive = true ↔ 0 < m.health := by
  simp [PartyMember.is_alive]

/-- Non-liveness projected to arithmetic. -/
theorem is_alive_false_iff (m : PartyMember) : m.is_alive = false ↔ m.health ≤ 0 := by
  simp [PartyMember.is_alive]

/-- The clamp of the −10 hunger step, written with subtraction. -/
theorem hungerAfter_eq (m : PartyMember) :
    max 0 (min m.max_hunger (m.hunger + -10)) = hungerAfterDaily m := by
  unfold hungerAfterDaily
  simp only [max_def, min_def]
  split_ifs <;> omega

/-- The method `change_hunger` never touches name, the bounds, or health. -/
theorem change_hunger_keeps (m : PartyMember) (a : Int) (log : List String) (b : Bool) :
    (m.change_hunger a log b).1.name = m.name ∧
    (m.change_hunger a log b).1.max_health = m.max_health ∧
    (m.change_hunger a log b).1.max_hunger = m.max_hunger ∧
    (m.change_hunger a log b).1.health = m.health := by
  rw [change_hunger_fst]
  split_ifs <;> exact ⟨rfl, rfl, rfl, rfl⟩

/-- On a living member, the −10 hunger step yields exactly the clamped
`hungerAfterDaily` value. -/
theorem change_hunger_hunger (m : PartyMember) (log : List String) (b : Bool)
    (halive : m.is_alive = true) :
    (m.change_hunger (-10) log b).1.hunger = hungerAfterDaily m := by
  rw [change_hunger_fst]
  rw [if_neg (by simp [halive])]
  split_ifs <;> exact hungerAfter_eq m

/-- The method `change_hunger` only ever edits the "starving" tag. -/
theorem change_hunger_mem_other (m : PartyMember) (a : Int) (log : List String)
    (b : Bool) (t : String) (ht : t ≠ "starving") :
    (t ∈ (m.change_hunger a log b).1.status_effects ↔ t ∈ m.status_effects) := by
  rw [change_hunger_fst]
  split_ifs <;> simp [List.mem_cons, List.mem_filter, bne_iff_ne, ht]

/-- After the −10 hunger step on a living member, "starving" is active
exactly when `starvingAfterDaily` says so. -/
theorem change_hunger_mem_starving (m : PartyMember) (log : List String) (b : Bool)
    (halive : m.is_alive = true) :
    ("starving" ∈ (m.change_hunger (-10) log b).1.status_effects ↔
      starvingAfterDaily m) := by
  rw [change_hunger_fst]
  rw [if_neg (by simp [halive])]
  rw [hungerAfter_eq]
  split_ifs with h1 h2
  · simp only [List.mem_cons, true_or, true_iff]
    exact Or.inl h1.1
  · simp only [List.mem_filter, bne_self_eq_false, Bool.false_eq_true, and_false, false_iff]
    rintro (hz | ⟨-, hz⟩) <;> omega
  · constructor
    · intro hmem
      by_cases hz : hungerAfterDaily m ≤ 10
      · exact Or.inr ⟨hmem, hz⟩
      · exact absurd ⟨by omega, hmem⟩ h2
    · rintro (hz | ⟨hmem, -⟩)
      · by_contra hmem
        exact h1 ⟨hz, hmem⟩
      · exact hmem

/-- The method `take_damage` never touches name, the bounds, or hunger. -/
theorem take_damage_keeps (m : PartyMember) (a : Int) (log : List String) (b : Bool) :
    (m.take_damage a log b).1.name = m.name ∧
    (m.take_damage a log b).1.max_health = m.max_health ∧
    (m.take_damage a log b).1.max_hunger = m.max_hunger ∧
    (m.take_damage a log b).1.hunger = m.hunger := by
  rw [take_damage_fst]
  split_ifs <;> exact ⟨rfl, rfl, rfl, rfl⟩

/-- The method `take_damage` only ever adds the "perished" tag. -/
theorem take_damage_mem_other (m : PartyMember) (a : Int) (log : List String)
    (b : Bool) (t : String) (ht : t ≠ "perished") :
    (t ∈ (m.take_damage a log b).1.status_effects ↔ t ∈ m.status_effects) := by
  rw [take_damage_fst]
  split_ifs <;> simp [List.mem_cons, ht]

/-- Health after `take_damage` with a positive amount: clamped subtraction on
a living member, untouched on a dead one. -/
theorem take_damage_health_pos (m : PartyMember) (a : Int) (log : List String)
    (b : Bool) (ha : 0 < a) :
    (m.take_damage a log b).1.health =
      if 0 < m.health then max 0 (m.health - a) else m.health := by
  rw [take_damage_fst]
  by_cases hal : 0 < m.health
  · rw [if_pos hal]
    rw [if_neg (by
      push_neg
      exact ⟨by omega, by simp [is_alive_false_iff]; omega⟩)]
    split_ifs <;> rfl
  · rw [if_neg hal]
    rw [if_pos (Or.inr (by rw [is_alive_false_iff]; omega))]

/-- A status-damage step only ever adds the "perished" tag. -/
theorem dailyStep_mem (tag : String) (amt : Int) (p : PartyMember × List String)
    (t : String) (ht : t ≠ "perished") :
    (t ∈ (dailyStep tag amt p).1.status_effects ↔ t ∈ p.1.status_effects) := by
  unfold dailyStep
  split_ifs
  · exact take_damage_mem_other _ _ _ _ _ ht
  · exact Iff.rfl

/-- A status-damage step never touches name, the bounds, or hunger. -/
theorem dailyStep_keeps (tag : String) (amt : Int) (p : PartyMember × List String) :
    (dailyStep tag amt p).1.name = p.1.name ∧
    (dailyStep tag amt p).1.max_health = p.1.max_health ∧
    (dailyStep tag amt p).1.max_hunger = p.1.max_hunger ∧
    (dailyStep tag amt p).1.hunger = p.1.hunger := by
  unfold dailyStep
  split_ifs
  · exact take_damage_keeps _ _ _ _
  · exact ⟨rfl, rfl, rfl, rfl⟩

/-- Health after a status-damage step: clamped subtraction exactly when the
tag is active on a living member. -/
theorem dailyStep_health (tag : String) (amt : Int) (p : PartyMember × List String)
    (ha : 0 < amt) :
    (dailyStep tag amt p).1.health =
      if tag ∈ p.1.status_effects ∧ 0 < p.1.health then max 0 (p.1.health - amt)
      else p.1.health := by
  unfold dailyStep
  by_cases hmem : tag ∈ p.1.status_effects
  · rw [if_pos (by simp [PartyMember.has_status_effect, hmem])]
    rw [take_damage_health_pos _ _ _ _ ha]
    by_cases hp : 0 < p.1.health
    · rw [if_pos hp, if_pos ⟨hmem, hp⟩]
    · rw [if_neg hp, if_neg (fun hc => hp hc.2)]
  · rw [if_neg (by simp [PartyMember.has_status_effect, hmem])]
    rw [if_neg (fun hc => hmem hc.1)]

/-- The three status-damage steps never touch hunger. -/
theorem dailyChain_hunger (p : PartyMember × List String) :
    (dailyChain p).1.hunger = p.1.hunger := by
  unfold dailyChain
  rw [(dailyStep_keeps _ _ _).2.2.2, (dailyStep_keeps _ _ _).2.2.2,
    (dailyStep_keeps _ _ _).2.2.2]

/-- Health after the three status-damage steps on a living member: the
applicable damages (starving 12, sick 3, snakebitten 8) stack and the result
clamps at 0. -/
theorem dailyChain_health (p : PartyMember × List String) (hpos : 0 < p.1.health) :
    (dailyChain p).1.health =
      max 0 (p.1.health -
        ((if "starving" ∈ p.1.status_effects then 12 else 0) +
         (if "sick" ∈ p.1.status_effects then 3 else 0) +
         (if "snakebitten" ∈ p.1.status_effects then 8 else 0))) := by
  have e1 := dailyStep_health ("starving") 12 p (by norm_num)
  have e2 := dailyStep_health ("sick") 3 (dailyStep ("starving") 12 p) (by norm_num)
  have e3 := dailyStep_health ("snakebitten") 8
    (dailyStep ("sick") 3 (dailyStep ("starving") 12 p)) (by norm_num)
  have ms2 := dailyStep_mem ("sick") 3 (dailyStep ("starving") 12 p)
    ("snakebitten") (by decide)
  have ms1 := dailyStep_mem ("starving") 12 p ("snakebitten") (by decide)
  have mk1 := dailyStep_mem ("starving") 12 p ("sick") (by decide)
  unfold dailyChain
  simp only [e3, ms2, ms1, e2, mk1, e1]
  by_cases h1 : "starving" ∈ p.1.status_effects <;>
    by_cases h2 : "sick" ∈ p.1.status_effects <;>
      by_cases h3 : "snakebitten" ∈ p.1.status_effects <;>
        (simp only [h1, h2, h3, if_true, if_false, true_and, false_and]
         simp only [max_def]
         split_ifs <;> omega)

/-- A status-damage step with the tag active on a member who survives the
hit: plain subtraction plus the damage report. -/
theorem dailyStep_pos (tag : String) (amt : Int) (m : PartyMember)
    (lg : List String) (hmem : tag ∈ m.status_effects) (hpos : 0 < amt)
    (hs : 0 < m.health - amt) :
    dailyStep tag amt (m, lg) =
      ({ m with health := m.health - amt },
        lg ++ [takeDamageMsg m.name amt (m.health - amt) m.max_health]) := by
  unfold dailyStep
  rw [if_pos (by simp [PartyMember.has_status_effect, hmem])]
  rw [take_damage_survives m amt lg true hpos hs]
  rfl

/-- A status-damage step with the tag absent is the identity. -/
theorem dailyStep_skip (tag : String) (amt : Int) (m : PartyMember)
    (lg : List String) (hmem : tag ∉ m.status_effects) :
    dailyStep tag amt (m, lg) = (m, lg) := by
  unfold dailyStep
  rw [if_neg (by simp [PartyMember.has_status_effect, hmem])]

/-- The three status-damage steps never touch name or the bounds. -/
theorem dailyChain_keeps (p : PartyMember × List String) :
    (dailyChain p).1.name = p.1.name ∧
    (dailyChain p).1.max_health = p.1.max_health ∧
    (dailyChain p).1.max_hunger = p.1.max_hunger := by
  unfold dailyChain
  refine ⟨?_, ?_, ?_⟩
  · rw [(dailyStep_keeps _ _ _).1, (dailyStep_keeps _ _ _).1, (dailyStep_keeps _ _ _).1]
  · rw [(dailyStep_keeps _ _ _).2.1, (dailyStep_keeps _ _ _).2.1, (dailyStep_keeps _ _ _).2.1]
  · rw [(dailyStep_keeps _ _ _).2.2.1, (dailyStep_keeps _ _ _).2.2.1,
      (dailyStep_keeps _ _ _).2.2.1]

/-- When the member survives all applicable daily damage, the three
status-damage steps append exactly the damage reports of the active tags, in
the fixed order starving, sick, snakebitten, each report carrying the running
health after that hit. -/
theorem dailyChain_log (m : PartyMember) (lg : List String)
    (hsurv : (if "starving" ∈ m.status_effects then 12 else 0) +
             (if "sick" ∈ m.status_effects then 3 else 0) +
             (if "snakebitten" ∈ m.status_effects then 8 else 0) < m.health) :
    (dailyChain (m, lg)).2 = lg
      ++ (if "starving" ∈ m.status_effects then
            [takeDamageMsg m.name 12 (m.health - 12) m.max_health] else [])
      ++ (if "sick" ∈ m.status_effects then
            [takeDamageMsg m.name 3
              (m.health - (if "starving" ∈ m.status_effects then 12 else 0) - 3)
              m.max_health] else [])
      ++ (if "snakebitten" ∈ m.status_effects then
            [takeDamageMsg m.name 8
              (m.health - (if "starving" ∈ m.status_effects then 12 else 0)
                - (if "sick" ∈ m.status_effects then 3 else 0) - 8)
              m.max_health] else []) := by
  unfold dailyChain
  by_cases h1 : "starving" ∈ m.status_effects <;>
    by_cases h2 : "sick" ∈ m.status_effects <;>
      by_cases h3 : "snakebitten" ∈ m.status_effects <;>
        simp only [h1, h2, h3, if_true, if_false] at hsurv
  · rw [dailyStep_pos ("starving") 12 m lg h1 (by norm_num) (by omega)]
    rw [dailyStep_pos ("sick") 3]
    · rw [dailyStep_pos ("snakebitten") 8]
      · simp [h1, h2, h3]
      · exact h3
      · norm_num
      · show (0:Int) < m.health - 12 - 3 - 8
        omega
    · exact h2
    · norm_num
    · show (0:Int) < m.health - 12 - 3
      omega
  · rw [dailyStep_pos ("starving") 12 m lg h1 (by norm_num) (by omega)]
    rw [dailyStep_pos ("sick") 3]
    · rw [dailyStep_skip ("snakebitten") 8]
      · simp [h1, h2, h3]
      · exact h3
    · exact h2
    · norm_num
    · show (0:Int) < m.health - 12 - 3
      omega
  · rw [dailyStep_pos ("starving") 12 m lg h1 (by norm_num) (by omega)]
    rw [dailyStep_skip ("sick") 3]
    · rw [dailyStep_pos ("snakebitten") 8]
      · simp [h1, h2, h3]
      · exact h3
      · norm_num
      · show (0:Int) < m.health - 12 - 8
        omega
    · exact h2
  · rw [dailyStep_pos ("starving") 12 m lg h1 (by norm_num) (by omega)]
    rw [dailyStep_skip ("sick") 3]
    · rw [dailyStep_skip ("snakebitten") 8]
      · simp [h1, h2, h3]
      · exact h3
    · exact h2
  · rw [dailyStep_skip ("starving") 12 m lg h1]
    rw [dailyStep_pos ("sick") 3 m lg h2 (by norm_num) (by omega)]
    rw [dailyStep_pos ("snakebitten") 8]
    · simp [h1, h2, h3]
    · exact h3
    · norm_num
    · show (0:Int) < m.health - 3 - 8
      omega
  · rw [dailyStep_skip ("starving") 12 m lg h1]
    rw [dailyStep_pos ("sick") 3 m lg h2 (by norm_num) (by omega)]
    rw [dailyStep_skip ("snakebitten") 8]
    · simp [h1, h2, h3]
    · exact h3
  · rw [dailyStep_skip ("starving") 12 m lg h1]
    rw [dailyStep_skip ("sick") 3 m lg h2]
    rw [dailyStep_pos ("snakebitten") 8 m lg h3 (by norm_num) (by omega)]
    simp [h1, h2, h3]
  · rw [dailyStep_skip ("starving") 12 m lg h1]
    rw [dailyStep_skip ("sick") 3 m lg h2]
    rw [dailyStep_skip ("snakebitten") 8 m lg h3]
    simp [h1, h2, h3]

/-- The log law of the three status-damage steps, stated for an arbitrary
member-log pair. -/
theorem dailyChain_log_any (p : PartyMember × List String)
    (hsurv : (if "starving" ∈ p.1.status_effects then 12 else 0) +
             (if "sick" ∈ p.1.status_effects then 3 else 0) +
             (if "snakebitten" ∈ p.1.status_effects then 8 else 0) < p.1.health) :
    (dailyChain p).2 = p.2
      ++ (if "starving" ∈ p.1.status_effects then
            [takeDamageMsg p.1.name 12 (p.1.health - 12) p.1.max_health] else [])
      ++ (if "sick" ∈ p.1.status_effects then
            [takeDamageMsg p.1.name 3
              (p.1.health - (if "starving" ∈ p.1.status_effects then 12 else 0) - 3)
              p.1.max_health] else [])
      ++ (if "snakebitten" ∈ p.1.status_effects then
            [takeDamageMsg p.1.name 8
              (p.1.health - (if "starving" ∈ p.1.status_effects then 12 else 0)
                - (if "sick" ∈ p.1.status_effects then 3 else 0) - 8)
              p.1.max_health] else []) := by
  obtain ⟨m, lg⟩ := p
  exact dailyChain_log m lg hsurv

/-- C7: `apply_daily_effects` is a no-op on a dead member.  On every living
member it first applies the −10 hunger change (clamped into bounds, with the
starving tag updated by the hysteresis rule, giving `hungerAfterDaily` and
`starvingAfterDaily`), then deals 12 damage if starving, 3 if sick, 8 if
snakebitten, in that fixed order, nothing for any other tag such as
injured: health ends at `max 0 (health − dailyDamageOf)` with hunger, name
and the bounds as stated, and when the member survives every applicable hit
the log grows by the hunger-step messages first and then exactly one damage
report per active tag, in the order starving, sick, snakebitten, each
report carrying the running health after its own hit. -/
theorem apply_daily_effects_order_and_scenario (m : PartyMember) (log : List String) :
    (m.is_alive = false → m.apply_daily_effects log = (m, log)) ∧
    (m.is_alive = true →
      (m.apply_daily_effects log).1.health = max 0 (m.health - dailyDamageOf m) ∧
      (m.apply_daily_effects log).1.hunger = hungerAfterDaily m ∧
      (m.apply_daily_effects log).1.name = m.name ∧
      (m.apply_daily_effects log).1.max_health = m.max_health ∧
      (m.apply_daily_effects log).1.max_hunger = m.max_hunger) ∧
    (m.is_alive = true → dailyDamageOf m < m.health →
      (m.apply_daily_effects log).2 =
        (m.change_hunger (-10) log true).2
        ++ (if starvingAfterDaily m then
              [takeDamageMsg m.name 12 (m.health - 12) m.max_health] else [])
        ++ (if "sick" ∈ m.status_effects then
              [takeDamageMsg m.name 3
                (m.health - (if starvingAfterDaily m then 12 else 0) - 3)
                m.max_health] else [])
        ++ (if "snakebitten" ∈ m.status_effects then
              [takeDamageMsg m.name 8
                (m.health - (if starvingAfterDaily m then 12 else 0)
                  - (if "sick" ∈ m.status_effects then 3 else 0) - 8)
                m.max_health] else [])) := by
  have hk := change_hunger_keeps m (-10) log true
  refine ⟨?_, ?_, ?_⟩
  · intro hdead
    unfold PartyMember.apply_daily_effects
    rw [if_pos hdead]
  · intro halive
    have hpos : 0 < m.health := (is_alive_true_iff m).1 halive
    have hstar := change_hunger_mem_starving m log true halive
    have hsick := change_hunger_mem_other m (-10) log true ("sick") (by decide)
    have hsnake := change_hunger_mem_other m (-10) log true ("snakebitten") (by decide)
    rw [apply_daily_effects_eq m log halive]
    refine ⟨?_, ?_, ?_, ?_, ?_⟩
    · rw [dailyChain_health _ (by rw [hk.2.2.2]; exact hpos)]
      rw [hk.2.2.2]
      unfold dailyDamageOf
      by_cases hs : starvingAfterDaily m <;>
        by_cases h2 : "sick" ∈ m.status_effects <;>
          by_cases h3 : "snakebitten" ∈ m.status_effects <;>
            simp [hstar, hsick, hsnake, hs, h2, h3]
    · rw [dailyChain_hunger]
      exact change_hunger_hunger m log true halive
    · rw [(dailyChain_keeps _).1, hk.1]
    · rw [(dailyChain_keeps _).2.1, hk.2.1]
    · rw [(dailyChain_keeps _).2.2, hk.2.2.1]
  · intro halive hsurv
    have hstar := change_hunger_mem_starving m log true halive
    have hsick := change_hunger_mem_other m (-10) log true ("sick") (by decide)
    have hsnake := change_hunger_mem_other m (-10) log true ("snakebitten") (by decide)
    rw [apply_daily_effects_eq m log halive]
    rw [dailyChain_log_any (m.change_hunger (-10) log true) (by
      rw [hk.2.2.2]
      unfold dailyDamageOf at hsurv
      simp only [hstar, hsick, hsnake]
      by_cases hs : starvingAfterDaily m <;>
        by_cases h2 : "sick" ∈ m.status_effects <;>
          by_cases h3 : "snakebitten" ∈ m.status_effects <;>
            simp_all)]
    rw [hk.1, hk.2.1, hk.2.2.2]
    by_cases hs : starvingAfterDaily m <;>
      by_cases h2 : "sick" ∈ m.status_effects <;>
        by_cases h3 : "snakebitten" ∈ m.status_effects <;>
          simp [hstar, hsick, hsnake, hs, h2, h3]

/-- Witness: the sick and snakebitten member Koda at health 100, hunger 50,
is alive, survives the daily damage 0 + 3 + 8 = 11, and one daily pass
leaves health 89, hunger 40, and exactly the two damage reports in the
order sick (health 97) then snakebitten (health 89). -/
theorem apply_daily_effects_order_and_scenario_witness :
    sickSnake.is_alive = true ∧ dailyDamageOf sickSnake < sickSnake.health ∧
    (sickSnake.apply_daily_effects []).1.health = 89 ∧
    (sickSnake.apply_daily_effects []).1.hunger = 40 ∧
    (sickSnake.apply_daily_effects []).2 =
      [takeDamageMsg ("Koda") 3 97 100, takeDamageMsg ("Koda") 8 89 100] := by
  refine ⟨rfl, by decide, ?_, ?_, ?_⟩
  · rw [((apply_daily_effects_order_and_scenario sickSnake []).2.1 rfl).1]
    decide
  · rw [((apply_daily_effects_order_and_scenario sickSnake []).2.1 rfl).2.1]
    decide
  · rw [(apply_daily_effects_order_and_scenario sickSnake []).2.2 rfl (by decide)]
    rfl
